import Mathlib

/-!
Shallow embedding of the email-discovery and verification subsystem
(`EmailFinder` in `src/src/email_finder.py`): candidate generation,
DNS mail-exchange lookup, the SMTP handshake result mapping, the host
fallback loop, catch-all detection and the candidate selection loop.

Python strings are modelled as Lean `String`; the Python string methods
used by the source (`lower`, `strip`, `split`, `rstrip`, indexing) are
embedded structurally on the underlying character list so that they are
kernel-executable.  The network is modelled by explicit oracle
parameters: a DNS resolver outcome per domain, an SMTP handshake outcome
per (address, host), and - at the selection level - a verification
oracle mapping an address to its `EmailVerificationResult`, matching the
pluggable-oracle view of the specification.  Wall-clock time for the
rate limiter is modelled by rational timestamps.
-/

namespace EmailFinder

/-- Python `str.lower()` as applied by the source to name inputs
(ASCII case folding, character by character). -/
def pyLower (s : String) : String := String.mk (s.data.map Char.toLower)

/-- Python `str.strip()`: remove leading and trailing whitespace. -/
def pyStrip (s : String) : String :=
  String.mk (((s.data.dropWhile Char.isWhitespace).reverse.dropWhile Char.isWhitespace).reverse)

/-- Python `s[0]` on a non-empty string, used in an f-string, i.e. the
first character as a one-character string. -/
def pyHeadChar (s : String) : String := String.mk (s.data.take 1)

/-- Python `str.rstrip(".")`: remove trailing dots (applied to DNS
exchange host names). -/
def pyRstripDot (s : String) : String :=
  String.mk ((s.data.reverse.dropWhile (· = '.')).reverse)

/-- Python `str.split(sep)` for a one-character separator, on character
lists: splitting the empty string gives `[[]]`, and every separator
occurrence starts a new (possibly empty) field. -/
def splitOnChar (sep : Char) : List Char → List (List Char)
  | [] => [[]]
  | c :: cs =>
      if c = sep then [] :: splitOnChar sep cs
      else
        match splitOnChar sep cs with
        | [] => [[c]]
        | w :: ws => (c :: w) :: ws

/-- Python whitespace-splitting `str.split()` (no separator argument):
runs of whitespace separate maximal non-whitespace words, with no empty
fields.  The accumulator holds the current word reversed. -/
def pyWordsAux : List Char → List Char → List String
  | acc, [] => if acc = [] then [] else [String.mk acc.reverse]
  | acc, c :: cs =>
      if c.isWhitespace then
        if acc = [] then pyWordsAux [] cs
        else String.mk acc.reverse :: pyWordsAux [] cs
      else pyWordsAux (c :: acc) cs

/-- Python `str.split()` with no argument, as used on full names. -/
def pyWords (s : String) : List String := pyWordsAux [] s.data

/-- `EmailVerificationResult` dataclass: result of one verification
attempt. -/
structure EmailVerificationResult where
  email : String
  is_valid : Bool
  is_catch_all : Bool
  smtp_code : Option Nat
  message : String
deriving DecidableEq

/-- `EmailFinder.generate_permutations`: the ten candidate local parts
built from the lower-cased, stripped first and last name; the domain is
used exactly as given.  Empty normalized first or last name, or empty
domain, yields the empty list (Python string truthiness). -/
def generate_permutations (first_name last_name domain : String) : List String :=
  let first := pyStrip (pyLower first_name)
  let last := pyStrip (pyLower last_name)
  if first = "" ∨ last = "" ∨ domain = "" then []
  else
    let first_initial := pyHeadChar first
    [first ++ "@" ++ domain,
     first ++ "." ++ last ++ "@" ++ domain,
     first_initial ++ last ++ "@" ++ domain,
     first_initial ++ "." ++ last ++ "@" ++ domain,
     last ++ "@" ++ domain,
     first ++ last ++ "@" ++ domain,
     last ++ first ++ "@" ++ domain,
     last ++ "." ++ first ++ "@" ++ domain,
     first ++ "_" ++ last ++ "@" ++ domain,
     first ++ "-" ++ last ++ "@" ++ domain]

/-- Claim C3 (counterexample): with non-empty, non-blank inputs
`"John"`, `"Smith"`, `"ACME.com"` the candidates are not all
lower-cased: the domain part is used verbatim, so `"john@ACME.com"` is
produced and differs from its lower-casing. -/
theorem generate_permutations_uppercase_domain :
    ("John" : String) ≠ "" ∧ pyStrip "John" ≠ "" ∧
    ("Smith" : String) ≠ "" ∧ pyStrip "Smith" ≠ "" ∧
    ("ACME.com" : String) ≠ "" ∧ pyStrip "ACME.com" ≠ "" ∧
    ¬ (∀ c ∈ generate_permutations "John" "Smith" "ACME.com", pyLower c = c) := by
  refine ⟨by decide, by decide, by decide, by decide, by decide, by decide, ?_⟩
  intro h
  have := h "john@ACME.com" (by decide)
  exact absurd this (by decide)

/-- Claim C3 (amended): with a non-blank first and last name and a
non-empty domain, `generate_permutations` returns exactly the ten
candidates in the fixed priority order first, first.last, f+last,
f.last, last, firstlast, lastfirst, last.first, first_last, first-last,
where the local parts are built from the lower-cased stripped names and
the domain is appended verbatim. -/
theorem generate_permutations_fixed_order (first_name last_name domain : String)
    (hf : pyStrip (pyLower first_name) ≠ "")
    (hl : pyStrip (pyLower last_name) ≠ "")
    (hd : domain ≠ "") :
    generate_permutations first_name last_name domain =
      [pyStrip (pyLower first_name) ++ "@" ++ domain,
       pyStrip (pyLower first_name) ++ "." ++ pyStrip (pyLower last_name) ++ "@" ++ domain,
       pyHeadChar (pyStrip (pyLower first_name)) ++ pyStrip (pyLower last_name) ++ "@" ++ domain,
       pyHeadChar (pyStrip (pyLower first_name)) ++ "." ++ pyStrip (pyLower last_name) ++ "@" ++ domain,
       pyStrip (pyLower last_name) ++ "@" ++ domain,
       pyStrip (pyLower first_name) ++ pyStrip (pyLower last_name) ++ "@" ++ domain,
       pyStrip (pyLower last_name) ++ pyStrip (pyLower first_name) ++ "@" ++ domain,
       pyStrip (pyLower last_name) ++ "." ++ pyStrip (pyLower first_name) ++ "@" ++ domain,
       pyStrip (pyLower first_name) ++ "_" ++ pyStrip (pyLower last_name) ++ "@" ++ domain,
       pyStrip (pyLower first_name) ++ "-" ++ pyStrip (pyLower last_name) ++ "@" ++ domain] ∧
    (generate_permutations first_name last_name domain).length = 10 := by
  constructor
  · unfold generate_permutations
    simp [hf, hl, hd]
  · unfold generate_permutations
    simp [hf, hl, hd]

/-- Witness for the amended C3 theorem at a concrete input. -/
theorem generate_permutations_fixed_order_witness :
    pyStrip (pyLower "John") ≠ "" ∧ pyStrip (pyLower "Smith") ≠ "" ∧ ("acme.com" : String) ≠ "" ∧
    (generate_permutations "John" "Smith" "acme.com").length = 10 := by
  refine ⟨by decide, by decide, by decide, ?_⟩
  exact (generate_permutations_fixed_order "John" "Smith" "acme.com"
    (by decide) (by decide) (by decide)).2

/-- Claim C8 (counterexample): a whitespace-only domain is blank after
normalization, yet `generate_permutations "John" "Smith" " "` is not
empty - the domain is never normalized, and a non-empty whitespace
string is truthy in the guard. -/
theorem generate_permutations_blank_domain :
    pyStrip " " = "" ∧ generate_permutations "John" "Smith" " " ≠ [] := by
  constructor
  · decide
  · decide

/-- Claim C8 (amended): `generate_permutations` returns the empty list
exactly when the first name or the last name is empty or blank after
normalization, or the domain is the empty string; a whitespace-only
domain is not caught.  The function is total, so it never raises. -/
theorem generate_permutations_empty_iff (first_name last_name domain : String) :
    generate_permutations first_name last_name domain = [] ↔
      (pyStrip (pyLower first_name) = "" ∨ pyStrip (pyLower last_name) = "" ∨ domain = "") := by
  unfold generate_permutations
  by_cases h : pyStrip (pyLower first_name) = "" ∨ pyStrip (pyLower last_name) = "" ∨ domain = ""
  · simp [h]
  · simp [h]

/-- The fixed certainly-nonexistent probe address used by
`EmailFinder.check_catch_all`. -/
def catch_all_probe (domain : String) : String :=
  "nonexistent.user.xyz123abc" ++ "@" ++ domain

/-- `EmailFinder.check_catch_all`, over a verification oracle standing
for `verify_email`: the domain is catch-all iff the probe address
verifies as valid. -/
def check_catch_all (oracle : String → EmailVerificationResult) (domain : String) : Bool :=
  (oracle (catch_all_probe domain)).is_valid

/-- The candidate loop in `EmailFinder.find_valid_email`: verify each
candidate in order, returning the first valid result. -/
def verify_loop (oracle : String → EmailVerificationResult) :
    List String → Option EmailVerificationResult
  | [] => none
  | email :: rest =>
      let result := oracle email
      if result.is_valid then some result else verify_loop oracle rest

/-- The addresses the candidate loop actually submits to the oracle, in
order (instrumentation of `verify_loop`). -/
def verify_loop_probes (oracle : String → EmailVerificationResult) :
    List String → List String
  | [] => []
  | email :: rest =>
      if (oracle email).is_valid then [email]
      else email :: verify_loop_probes oracle rest

/-- `EmailFinder.find_valid_email`: catch-all detection first; a
catch-all domain with a non-empty candidate list short-circuits to the
first-priority candidate with a synthetic 250; otherwise the candidate
loop runs. -/
def find_valid_email (oracle : String → EmailVerificationResult)
    (first_name last_name domain : String) : Option EmailVerificationResult :=
  if check_catch_all oracle domain then
    match generate_permutations first_name last_name domain with
    | p :: _ => some ⟨p, true, true, some 250, "Catch-all domain - using best guess"⟩
    | [] => verify_loop oracle (generate_permutations first_name last_name domain)
  else verify_loop oracle (generate_permutations first_name last_name domain)

/-- The addresses `find_valid_email` submits to the oracle, in order:
the catch-all probe first (inside `check_catch_all`), then the
candidates actually verified. -/
def find_valid_email_probes (oracle : String → EmailVerificationResult)
    (first_name last_name domain : String) : List String :=
  catch_all_probe domain ::
    (if check_catch_all oracle domain then
      match generate_permutations first_name last_name domain with
      | _ :: _ => []
      | [] => verify_loop_probes oracle (generate_permutations first_name last_name domain)
     else verify_loop_probes oracle (generate_permutations first_name last_name domain))

/-- `EmailFinder.find_email_from_full_name`: strip and
whitespace-split the full name, then delegate to `find_valid_email`;
fewer than two tokens fall back to the first token (or `""`) and an
empty last name. -/
def find_email_from_full_name (oracle : String → EmailVerificationResult)
    (full_name domain : String) : Option EmailVerificationResult :=
  let parts := pyWords (pyStrip full_name)
  if parts.length < 2 then
    find_valid_email oracle (parts.headD "") "" domain
  else
    find_valid_email oracle (parts.headD "") (parts.getLastD "") domain

/-- Outcome of the SMTP handshake attempt inside
`EmailFinder._smtp_check` against one host: either the RCPT response
code with its message, or one of the exception classes the source
catches. -/
inductive SmtpOutcome where
  | response (code : Nat) (msg : String)
  | serverDisconnected
  | connectError (e : String)
  | timeout
  | otherError (e : String)
deriving DecidableEq

/-- `EmailFinder._smtp_check`: map the handshake outcome to an
`EmailVerificationResult`.  Every exception class is caught and mapped
to an invalid result with no status code; the function is total, so
nothing propagates to the caller. -/
def smtp_check (email : String) (outcome : SmtpOutcome) : EmailVerificationResult :=
  match outcome with
  | .response code msg =>
      if code = 250 then ⟨email, true, false, some code, msg⟩
      else if code = 550 then ⟨email, false, false, some code, msg⟩
      else if code = 551 ∨ code = 552 ∨ code = 553 then ⟨email, false, false, some code, msg⟩
      else ⟨email, false, false, some code, "Unexpected response: " ++ msg⟩
  | .serverDisconnected => ⟨email, false, false, none, "Server disconnected"⟩
  | .connectError e => ⟨email, false, false, none, "Connection error: " ++ e⟩
  | .timeout => ⟨email, false, false, none, "Connection timeout"⟩
  | .otherError e => ⟨email, false, false, none, e⟩

/-- Outcome of the DNS MX resolution in `EmailFinder.get_mx_records`:
the answer records as (preference, exchange) pairs, or one of the
caught resolver failures. -/
inductive MxOutcome where
  | records (l : List (Nat × String))
  | nxdomain
  | noAnswer
  | dnsError (e : String)
deriving DecidableEq

/-- Stable ascending insertion by preference value, mirroring the
stable `list.sort(key=lambda x: x[0])` of the source: an element is
inserted after all earlier elements with preference not larger. -/
def insertByPreference (x : Nat × String) : List (Nat × String) → List (Nat × String)
  | [] => [x]
  | y :: ys => if y.1 < x.1 then y :: insertByPreference x ys else x :: y :: ys

/-- Stable sort by preference value (insertion sort). -/
def sortByPreference : List (Nat × String) → List (Nat × String)
  | [] => []
  | x :: xs => insertByPreference x (sortByPreference xs)

/-- `EmailFinder.get_mx_records`: on success, strip trailing dots from
each exchange, sort the pairs ascending by preference and return the
host names; every caught resolver failure yields the empty list. -/
def get_mx_records (resolver : String → MxOutcome) (domain : String) : List String :=
  match resolver domain with
  | .records l => (sortByPreference (l.map (fun r => (r.1, pyRstripDot r.2)))).map (·.2)
  | .nxdomain => []
  | .noAnswer => []
  | .dnsError _ => []

/-- The domain extraction `email.split("@")[1]` at the top of
`EmailFinder.verify_email`; `none` models the uncaught `IndexError`
when the split has no second field. -/
def email_domain (email : String) : Option String :=
  ((splitOnChar '@' email.data).get? 1).map String.mk

/-- Whether the handshake outcome against one host is definitive, i.e.
carries an SMTP status code (the `result.smtp_code is not None` test in
the host loop of `verify_email`). -/
def host_definitive (smtpO : String → String → SmtpOutcome) (email host : String) : Bool :=
  (smtp_check email (smtpO email host)).smtp_code.isSome

/-- The host loop of `EmailFinder.verify_email`: run the handshake
against each host in turn and return the first definitive result. -/
def host_loop (smtpO : String → String → SmtpOutcome) (email : String) :
    List String → Option EmailVerificationResult
  | [] => none
  | host :: rest =>
      let result := smtp_check email (smtpO email host)
      if result.smtp_code.isSome then some result else host_loop smtpO email rest

/-- The hosts the host loop actually attempts, in order
(instrumentation of `host_loop`). -/
def host_loop_attempts (smtpO : String → String → SmtpOutcome) (email : String) :
    List String → List String
  | [] => []
  | host :: rest =>
      if host_definitive smtpO email host then [host]
      else host :: host_loop_attempts smtpO email rest

/-- `EmailFinder.verify_email` over a DNS resolver and an SMTP
handshake oracle: extract the domain (an absent second field raises,
modelled as `Except.error`), resolve MX records, return early on an
empty record list, otherwise run the host loop over the first two hosts
and fall back to the unreachable result. -/
def verify_email (resolver : String → MxOutcome) (smtpO : String → String → SmtpOutcome)
    (email : String) : Except Unit EmailVerificationResult :=
  match email_domain email with
  | none => .error ()
  | some domain =>
      let mx_records := get_mx_records resolver domain
      if mx_records = [] then
        .ok ⟨email, false, false, none, "No MX records found"⟩
      else
        match host_loop smtpO email (mx_records.take 2) with
        | some result => .ok result
        | none => .ok ⟨email, false, false, none, "All MX servers unreachable"⟩

/-- The hosts `verify_email` attempts an SMTP handshake against, in
order. -/
def verify_email_attempts (resolver : String → MxOutcome)
    (smtpO : String → String → SmtpOutcome) (email : String) : List String :=
  match email_domain email with
  | none => []
  | some domain =>
      let mx_records := get_mx_records resolver domain
      if mx_records = [] then []
      else host_loop_attempts smtpO email (mx_records.take 2)

/-- The observable I/O-relevant events of one `verify_email` call, in
program order: the DNS resolution, then - only when records were found -
the `_rate_limit()` call followed by the SMTP handshakes. -/
inductive NetEvent where
  | dns (domain : String)
  | rateLimitCall
  | smtp (host : String)
deriving DecidableEq

/-- Whether a `NetEvent` is an SMTP handshake. -/
def NetEvent.isSmtp : NetEvent → Bool
  | .smtp _ => true
  | _ => false

/-- Whether a `NetEvent` is the rate-limiter call. -/
def NetEvent.isRateLimitCall : NetEvent → Bool
  | .rateLimitCall => true
  | _ => false

/-- Event trace of `EmailFinder.verify_email`, mirroring its statement
order: `email.split` (no I/O), `get_mx_records` (DNS I/O), the early
return on no records, `self._rate_limit()`, then the host loop. -/
def verify_email_events (resolver : String → MxOutcome)
    (smtpO : String → String → SmtpOutcome) (email : String) : List NetEvent :=
  match email_domain email with
  | none => []
  | some domain =>
      NetEvent.dns domain ::
        (let mx_records := get_mx_records resolver domain
         if mx_records = [] then []
         else NetEvent.rateLimitCall ::
           (host_loop_attempts smtpO email (mx_records.take 2)).map NetEvent.smtp)

/-- `EmailFinder._rate_limit`: the sleep the call performs, given the
configured delay, the stored `_last_request_time` and the current
clock. -/
def rate_limit_sleep (rate_limit_delay last_request_time now : ℚ) : ℚ :=
  if now - last_request_time < rate_limit_delay
  then rate_limit_delay - (now - last_request_time) else 0

/-- `EmailFinder._rate_limit`: the new `_last_request_time`, which is
also the time at which the call returns and the probe may start. -/
def rate_limit_next (rate_limit_delay last_request_time now : ℚ) : ℚ :=
  now + rate_limit_sleep rate_limit_delay last_request_time now

/-- Two consecutive rate-limited probes on one finder: the first
`verify` call arrives at `first_call` with stored timestamp
`initial_last`, its probe takes `probe_duration`, and the second
`verify` call arrives at `second_call` (no earlier than the first probe
ends).  Returns the gap between the end of the first probe and the
start of the second. -/
def two_probe_gap (delay initial_last first_call probe_duration second_call : ℚ) : ℚ :=
  let first_probe_start := rate_limit_next delay initial_last first_call
  let first_probe_end := first_probe_start + probe_duration
  let second_probe_start :=
    rate_limit_next delay first_probe_start (max second_call first_probe_end)
  second_probe_start - first_probe_end

theorem verify_loop_eq_of_found (oracle : String → EmailVerificationResult)
    (l : List String) (e : String)
    (h : l.find? (fun x => (oracle x).is_valid) = some e) :
    verify_loop oracle l = some (oracle e) ∧
    verify_loop_probes oracle l =
      l.takeWhile (fun x => !(oracle x).is_valid) ++ [e] := by
  induction l with
  | nil => simp at h
  | cons x xs ih =>
    by_cases hx : (oracle x).is_valid = true
    · rw [List.find?_cons] at h
      simp only [hx] at h
      cases h
      simp [verify_loop, verify_loop_probes, List.takeWhile_cons, hx]
    · rw [List.find?_cons] at h
      simp only [Bool.not_eq_true] at hx
      simp only [hx] at h
      have hih := ih h
      simp [verify_loop, verify_loop_probes, List.takeWhile_cons, hx, hih.1, hih.2]

theorem verify_loop_eq_of_none (oracle : String → EmailVerificationResult)
    (l : List String)
    (h : l.find? (fun x => (oracle x).is_valid) = none) :
    verify_loop oracle l = none ∧ verify_loop_probes oracle l = l := by
  induction l with
  | nil => simp [verify_loop, verify_loop_probes]
  | cons x xs ih =>
    rw [List.find?_cons] at h
    by_cases hx : (oracle x).is_valid = true
    · simp [hx] at h
    · simp only [hx] at h
      have hih := ih (by simpa using h)
      simp [verify_loop, verify_loop_probes, hx, hih.1, hih.2]

/-- Claim C1: when the candidate list is non-empty and the domain is
not detected as catch-all, `find_valid_email` probes the catch-all
address and then the candidates strictly in permutation order, returns
the oracle result of the first candidate reported valid without probing
any later candidate, and returns none when the oracle reports every
candidate invalid (having probed them all). -/
theorem find_valid_email_first_match (oracle : String → EmailVerificationResult)
    (first_name last_name domain : String)
    (_hne : generate_permutations first_name last_name domain ≠ [])
    (hca : check_catch_all oracle domain = false) :
    match (generate_permutations first_name last_name domain).find?
        (fun x => (oracle x).is_valid) with
    | some e =>
        find_valid_email oracle first_name last_name domain = some (oracle e) ∧
        find_valid_email_probes oracle first_name last_name domain =
          catch_all_probe domain ::
            ((generate_permutations first_name last_name domain).takeWhile
              (fun x => !(oracle x).is_valid) ++ [e])
    | none =>
        find_valid_email oracle first_name last_name domain = none ∧
        find_valid_email_probes oracle first_name last_name domain =
          catch_all_probe domain :: generate_permutations first_name last_name domain := by
  unfold find_valid_email find_valid_email_probes
  rw [hca]
  simp only [Bool.false_eq_true, if_false]
  cases hfind : (generate_permutations first_name last_name domain).find?
      (fun x => (oracle x).is_valid) with
  | some e =>
    have h := verify_loop_eq_of_found oracle _ e hfind
    exact ⟨h.1, by rw [h.2]⟩
  | none =>
    have h := verify_loop_eq_of_none oracle _ hfind
    exact ⟨h.1, by rw [h.2]⟩

/-- Witness for C1: an oracle validating exactly
`john.smith@acme.com`; the second-priority candidate wins, the later
eight are never probed. -/
theorem find_valid_email_first_match_witness :
    generate_permutations "John" "Smith" "acme.com" ≠ [] ∧
    check_catch_all
      (fun e => ⟨e, decide (e = "john.smith@acme.com"), false, none, ""⟩) "acme.com" = false ∧
    match (generate_permutations "John" "Smith" "acme.com").find?
        (fun x => ((fun e => EmailVerificationResult.mk e
          (decide (e = "john.smith@acme.com")) false none "") x).is_valid) with
    | some e =>
        find_valid_email
          (fun e => ⟨e, decide (e = "john.smith@acme.com"), false, none, ""⟩)
          "John" "Smith" "acme.com" =
          some ((fun e => EmailVerificationResult.mk e
            (decide (e = "john.smith@acme.com")) false none "") e) ∧
        find_valid_email_probes
          (fun e => ⟨e, decide (e = "john.smith@acme.com"), false, none, ""⟩)
          "John" "Smith" "acme.com" =
          catch_all_probe "acme.com" ::
            ((generate_permutations "John" "Smith" "acme.com").takeWhile
              (fun x => !((fun e => EmailVerificationResult.mk e
                (decide (e = "john.smith@acme.com")) false none "") x).is_valid) ++ [e])
    | none =>
        find_valid_email
          (fun e => ⟨e, decide (e = "john.smith@acme.com"), false, none, ""⟩)
          "John" "Smith" "acme.com" = none ∧
        find_valid_email_probes
          (fun e => ⟨e, decide (e = "john.smith@acme.com"), false, none, ""⟩)
          "John" "Smith" "acme.com" =
          catch_all_probe "acme.com" ::
            generate_permutations "John" "Smith" "acme.com" := by
  refine ⟨by decide, by decide, ?_⟩
  exact find_valid_email_first_match
    (fun e => ⟨e, decide (e = "john.smith@acme.com"), false, none, ""⟩)
    "John" "Smith" "acme.com" (by decide) (by decide)

/-- Claim C2: when the domain is detected as catch-all and the
candidate list is non-empty, `find_valid_email` returns the
first-priority candidate marked catch-all and valid with the synthetic
code 250, and the only oracle probe issued is the catch-all probe
itself. -/
theorem find_valid_email_catch_all_short_circuit
    (oracle : String → EmailVerificationResult)
    (first_name last_name domain p : String) (rest : List String)
    (hca : check_catch_all oracle domain = true)
    (hp : generate_permutations first_name last_name domain = p :: rest) :
    find_valid_email oracle first_name last_name domain =
      some ⟨p, true, true, some 250, "Catch-all domain - using best guess"⟩ ∧
    find_valid_email_probes oracle first_name last_name domain =
      [catch_all_probe domain] := by
  unfold find_valid_email find_valid_email_probes
  rw [hca, hp]
  simp

/-- Witness for C2: an oracle accepting every address makes the probe
succeed; the head candidate is returned unverified. -/
theorem find_valid_email_catch_all_short_circuit_witness :
    check_catch_all (fun e => ⟨e, true, false, some 250, "ok"⟩) "acme.com" = true ∧
    generate_permutations "John" "Smith" "acme.com" =
      "john@acme.com" :: ["john.smith@acme.com", "jsmith@acme.com", "j.smith@acme.com",
        "smith@acme.com", "johnsmith@acme.com", "smithjohn@acme.com", "smith.john@acme.com",
        "john_smith@acme.com", "john-smith@acme.com"] ∧
    find_valid_email (fun e => ⟨e, true, false, some 250, "ok"⟩) "John" "Smith" "acme.com" =
      some ⟨"john@acme.com", true, true, some 250, "Catch-all domain - using best guess"⟩ ∧
    find_valid_email_probes (fun e => ⟨e, true, false, some 250, "ok"⟩)
      "John" "Smith" "acme.com" = [catch_all_probe "acme.com"] := by
  refine ⟨by decide, by decide, ?_⟩
  exact find_valid_email_catch_all_short_circuit (fun e => ⟨e, true, false, some 250, "ok"⟩)
    "John" "Smith" "acme.com" "john@acme.com"
    ["john.smith@acme.com", "jsmith@acme.com", "j.smith@acme.com",
     "smith@acme.com", "johnsmith@acme.com", "smithjohn@acme.com", "smith.john@acme.com",
     "john_smith@acme.com", "john-smith@acme.com"] (by decide) (by decide)

/-- Claim C9: `find_email_from_full_name` strips the full name, splits
it on whitespace, and behaves exactly as `find_valid_email` on the
first token as first name and the last token as last name; with fewer
than two tokens the last name is empty and the call still proceeds. -/
theorem find_email_from_full_name_split (oracle : String → EmailVerificationResult)
    (full_name domain : String) :
    find_email_from_full_name oracle full_name domain =
      find_valid_email oracle
        ((pyWords (pyStrip full_name)).headD "")
        (if (pyWords (pyStrip full_name)).length < 2 then ""
         else (pyWords (pyStrip full_name)).getLastD "")
        domain := by
  unfold find_email_from_full_name
  by_cases h : (pyWords (pyStrip full_name)).length < 2
  · simp [h]
  · simp [h]

theorem host_loop_eq_of_found (smtpO : String → String → SmtpOutcome)
    (email : String) (l : List String) (host : String)
    (h : l.find? (host_definitive smtpO email) = some host) :
    host_loop smtpO email l = some (smtp_check email (smtpO email host)) ∧
    host_loop_attempts smtpO email l =
      l.takeWhile (fun x => !host_definitive smtpO email x) ++ [host] := by
  induction l with
  | nil => simp at h
  | cons x xs ih =>
    rw [List.find?_cons] at h
    by_cases hx : host_definitive smtpO email x = true
    · simp only [hx] at h
      injection h with hxh
      subst hxh
      constructor
      · rw [host_loop]
        simp only [show (smtp_check email (smtpO email x)).smtp_code.isSome = true from hx,
          if_true]
      · rw [host_loop_attempts, if_pos hx]
        simp [List.takeWhile_cons, hx]
    · simp only [Bool.not_eq_true] at hx
      simp only [hx] at h
      have hih := ih h
      constructor
      · rw [host_loop]
        simp only [show (smtp_check email (smtpO email x)).smtp_code.isSome = false from hx,
          Bool.false_eq_true, if_false]
        exact hih.1
      · simp [host_loop_attempts, List.takeWhile_cons, hx, hih.2]

theorem host_loop_eq_of_none (smtpO : String → String → SmtpOutcome)
    (email : String) (l : List String)
    (h : l.find? (host_definitive smtpO email) = none) :
    host_loop smtpO email l = none ∧ host_loop_attempts smtpO email l = l := by
  induction l with
  | nil => simp [host_loop, host_loop_attempts]
  | cons x xs ih =>
    rw [List.find?_cons] at h
    by_cases hx : host_definitive smtpO email x = true
    · simp [hx] at h
    · simp only [Bool.not_eq_true] at hx
      simp only [hx] at h
      have hih := ih (by simpa using h)
      constructor
      · rw [host_loop]
        simp only [show (smtp_check email (smtpO email x)).smtp_code.isSome = false from hx,
          Bool.false_eq_true, if_false]
        exact hih.1
      · simp [host_loop_attempts, hx, hih.2]

/-- Claim C5: the response-code mapping of the SMTP handshake against
one host.  Code 250 is valid; 550, 551, 552 and 553 are invalid with
the code surfaced; any other code is invalid with an "Unexpected
response" diagnostic; each caught exception class maps to an invalid
result with its class-specific diagnostic and no status code, and
since `smtp_check` is a total function nothing propagates to the
caller. -/
theorem smtp_check_code_mapping (email msg e : String) (code : Nat) :
    smtp_check email (.response 250 msg) = ⟨email, true, false, some 250, msg⟩ ∧
    (code = 550 ∨ code = 551 ∨ code = 552 ∨ code = 553 →
      smtp_check email (.response code msg) = ⟨email, false, false, some code, msg⟩) ∧
    (code ≠ 250 → code ≠ 550 → code ≠ 551 → code ≠ 552 → code ≠ 553 →
      smtp_check email (.response code msg) =
        ⟨email, false, false, some code, "Unexpected response: " ++ msg⟩) ∧
    smtp_check email .serverDisconnected = ⟨email, false, false, none, "Server disconnected"⟩ ∧
    smtp_check email (.connectError e) = ⟨email, false, false, none, "Connection error: " ++ e⟩ ∧
    smtp_check email .timeout = ⟨email, false, false, none, "Connection timeout"⟩ := by
  refine ⟨by simp [smtp_check], ?_, ?_, rfl, rfl, rfl⟩
  · rintro (rfl | rfl | rfl | rfl) <;> simp [smtp_check]
  · intro h1 h2 h3 h4 h5
    simp [smtp_check, h1, h2, h3, h4, h5]

/-- Witness for C5: the firm-rejection mapping at code 551 and the
unexpected-response mapping at code 421. -/
theorem smtp_check_code_mapping_witness :
    ((551 = 550 ∨ 551 = 551 ∨ 551 = 552 ∨ 551 = 553) ∧
      smtp_check "a@b.c" (.response 551 "no") = ⟨"a@b.c", false, false, some 551, "no"⟩) ∧
    smtp_check "a@b.c" (.response 421 "busy") =
      ⟨"a@b.c", false, false, some 421, "Unexpected response: " ++ "busy"⟩ := by
  constructor
  · exact ⟨by decide, (smtp_check_code_mapping "a@b.c" "no" "x" 551).2.1 (by decide)⟩
  · exact (smtp_check_code_mapping "a@b.c" "busy" "x" 421).2.2.1
      (by decide) (by decide) (by decide) (by decide) (by decide)

/-- Claim C6: with a resolvable domain and a non-empty MX record list,
`verify_email` attempts the handshake against at most the first two
hosts of the priority-sorted record list, in order, returns the result
of the first host with a definitive status code without attempting
later hosts, and returns the all-servers-unreachable invalid result
when neither of the first two hosts is definitive. -/
theorem verify_email_host_fallback (resolver : String → MxOutcome)
    (smtpO : String → String → SmtpOutcome) (email domain : String)
    (hdom : email_domain email = some domain)
    (hmx : get_mx_records resolver domain ≠ []) :
    match ((get_mx_records resolver domain).take 2).find? (host_definitive smtpO email) with
    | some host =>
        verify_email resolver smtpO email = .ok (smtp_check email (smtpO email host)) ∧
        verify_email_attempts resolver smtpO email =
          ((get_mx_records resolver domain).take 2).takeWhile
            (fun x => !host_definitive smtpO email x) ++ [host]
    | none =>
        verify_email resolver smtpO email =
          .ok ⟨email, false, false, none, "All MX servers unreachable"⟩ ∧
        verify_email_attempts resolver smtpO email = (get_mx_records resolver domain).take 2 := by
  unfold verify_email verify_email_attempts
  rw [hdom]
  simp only [hmx, if_false]
  cases hfind : ((get_mx_records resolver domain).take 2).find? (host_definitive smtpO email) with
  | some host =>
    have h := host_loop_eq_of_found smtpO email _ host hfind
    rw [h.1, h.2]
    exact ⟨rfl, rfl⟩
  | none =>
    have h := host_loop_eq_of_none smtpO email _ hfind
    rw [h.1, h.2]
    exact ⟨rfl, rfl⟩

/-- Witness for C6, the host-fallback scenario of the specification:
three MX records, the first host raises a connection error and the
second answers 250; the second host's valid result is returned, the
third host is never attempted. -/
theorem verify_email_host_fallback_witness :
    email_domain "john@acme.com" = some "acme.com" ∧
    get_mx_records (fun _ => .records [(10, "mx1.acme.com"), (20, "mx2.acme.com"),
      (30, "mx3.acme.com")]) "acme.com" ≠ [] ∧
    match ((get_mx_records (fun _ => .records [(10, "mx1.acme.com"), (20, "mx2.acme.com"),
        (30, "mx3.acme.com")]) "acme.com").take 2).find?
        (host_definitive (fun _ host => if host = "mx1.acme.com"
          then .connectError "refused" else .response 250 "OK") "john@acme.com") with
    | some host =>
        verify_email (fun _ => .records [(10, "mx1.acme.com"), (20, "mx2.acme.com"),
            (30, "mx3.acme.com")])
          (fun _ host => if host = "mx1.acme.com"
            then .connectError "refused" else .response 250 "OK") "john@acme.com" =
          .ok (smtp_check "john@acme.com" ((fun _ host => if host = "mx1.acme.com"
            then SmtpOutcome.connectError "refused" else SmtpOutcome.response 250 "OK")
            "john@acme.com" host)) ∧
        verify_email_attempts (fun _ => .records [(10, "mx1.acme.com"), (20, "mx2.acme.com"),
            (30, "mx3.acme.com")])
          (fun _ host => if host = "mx1.acme.com"
            then .connectError "refused" else .response 250 "OK") "john@acme.com" =
          ((get_mx_records (fun _ => .records [(10, "mx1.acme.com"), (20, "mx2.acme.com"),
            (30, "mx3.acme.com")]) "acme.com").take 2).takeWhile
            (fun x => !host_definitive (fun _ host => if host = "mx1.acme.com"
              then .connectError "refused" else .response 250 "OK") "john@acme.com" x) ++ [host]
    | none =>
        verify_email (fun _ => .records [(10, "mx1.acme.com"), (20, "mx2.acme.com"),
            (30, "mx3.acme.com")])
          (fun _ host => if host = "mx1.acme.com"
            then .connectError "refused" else .response 250 "OK") "john@acme.com" =
          .ok ⟨"john@acme.com", false, false, none, "All MX servers unreachable"⟩ ∧
        verify_email_attempts (fun _ => .records [(10, "mx1.acme.com"), (20, "mx2.acme.com"),
            (30, "mx3.acme.com")])
          (fun _ host => if host = "mx1.acme.com"
            then .connectError "refused" else .response 250 "OK") "john@acme.com" =
          (get_mx_records (fun _ => .records [(10, "mx1.acme.com"), (20, "mx2.acme.com"),
            (30, "mx3.acme.com")]) "acme.com").take 2 := by
  refine ⟨by decide, by decide, ?_⟩
  exact verify_email_host_fallback
    (fun _ => .records [(10, "mx1.acme.com"), (20, "mx2.acme.com"), (30, "mx3.acme.com")])
    (fun _ host => if host = "mx1.acme.com" then .connectError "refused" else .response 250 "OK")
    "john@acme.com" "acme.com" (by decide) (by decide)

/-- Claim C7: when MX resolution fails for the address's domain - the
domain does not exist, there are no MX records, or the resolver errors
out - `verify_email` returns an invalid result with the DNS diagnostic
"No MX records found" and no status code, and no SMTP handshake is
attempted against any host. -/
theorem verify_email_dns_failure (resolver : String → MxOutcome)
    (smtpO : String → String → SmtpOutcome) (email domain : String)
    (hdom : email_domain email = some domain)
    (hfail : resolver domain = .nxdomain ∨ resolver domain = .noAnswer ∨
      ∃ e, resolver domain = .dnsError e) :
    verify_email resolver smtpO email = .ok ⟨email, false, false, none, "No MX records found"⟩ ∧
    verify_email_attempts resolver smtpO email = [] ∧
    (verify_email_events resolver smtpO email).all (fun ev => !ev.isSmtp) = true := by
  have hmx : get_mx_records resolver domain = [] := by
    unfold get_mx_records
    rcases hfail with h | h | ⟨e, h⟩ <;> rw [h]
  unfold verify_email verify_email_attempts verify_email_events
  rw [hdom]
  simp [hmx, NetEvent.isSmtp]

/-- Witness for C7: a resolver reporting the domain nonexistent; the
result is the DNS-failure invalid result and the handshake oracle is
never consulted. -/
theorem verify_email_dns_failure_witness :
    email_domain "jane@nosuch.example" = some "nosuch.example" ∧
    ((fun _ => MxOutcome.nxdomain) "nosuch.example" = .nxdomain ∨
      (fun _ => MxOutcome.nxdomain) "nosuch.example" = .noAnswer ∨
      ∃ e, (fun _ => MxOutcome.nxdomain) "nosuch.example" = .dnsError e) ∧
    verify_email (fun _ => .nxdomain) (fun _ _ => .response 250 "OK") "jane@nosuch.example" =
      .ok ⟨"jane@nosuch.example", false, false, none, "No MX records found"⟩ ∧
    verify_email_attempts (fun _ => .nxdomain) (fun _ _ => .response 250 "OK")
      "jane@nosuch.example" = [] ∧
    (verify_email_events (fun _ => .nxdomain) (fun _ _ => .response 250 "OK")
      "jane@nosuch.example").all (fun ev => !ev.isSmtp) = true := by
  refine ⟨by decide, Or.inl rfl, ?_⟩
  have h := verify_email_dns_failure (fun _ => .nxdomain) (fun _ _ => .response 250 "OK")
    "jane@nosuch.example" "nosuch.example" (by decide) (Or.inl rfl)
  exact ⟨h.1, h.2.1, h.2.2⟩

theorem splitOnChar_eq_of_not_mem (sep : Char) (l : List Char) (h : sep ∉ l) :
    splitOnChar sep l = [l] := by
  induction l with
  | nil => rfl
  | cons c cs ih =>
    simp only [List.mem_cons, not_or] at h
    have hne : ¬(c = sep) := fun hc => h.1 hc.symm
    unfold splitOnChar
    rw [if_neg hne, ih h.2]

/-- Claim C10: an address containing no at-sign makes the domain split
of `verify_email` fail with an uncaught index error (modelled as the
error branch) instead of producing an `EmailVerificationResult`, for
every resolver and handshake oracle. -/
theorem verify_email_no_at_sign_raises (resolver : String → MxOutcome)
    (smtpO : String → String → SmtpOutcome) (email : String)
    (h : '@' ∉ email.data) :
    verify_email resolver smtpO email = .error () := by
  unfold verify_email email_domain
  rw [splitOnChar_eq_of_not_mem '@' email.data h]
  rfl

/-- Witness for C10: the plain string "invalid-email" contains no
at-sign and makes `verify_email` raise. -/
theorem verify_email_no_at_sign_raises_witness :
    '@' ∉ ("invalid-email" : String).data ∧
    verify_email (fun _ => .records [(10, "mx1.acme.com")]) (fun _ _ => .response 250 "OK")
      "invalid-email" = .error () := by
  refine ⟨by decide, ?_⟩
  exact verify_email_no_at_sign_raises (fun _ => .records [(10, "mx1.acme.com")])
    (fun _ _ => .response 250 "OK") "invalid-email" (by decide)

/-- Claim C4 (counterexample): the first I/O event of a `verify_email`
call is the DNS resolution, which precedes the rate-limiter call; and
with delay 2, a fresh finder whose first probe starts at time 100 and
lasts 3/2, a second `verify` arriving at time 102 starts its probe only
1/2 after the end of the previous probe - the enforced gap is measured
from the start of the previous probe, not from its end. -/
theorem verify_rate_limit_counterexample :
    (verify_email_events (fun _ => .records [(10, "mx1.acme.com")])
      (fun _ _ => .response 250 "OK") "a@acme.com").head? = some (NetEvent.dns "acme.com") ∧
    (NetEvent.dns "acme.com").isRateLimitCall = false ∧
    two_probe_gap 2 0 100 (3 / 2) 102 = 1 / 2 ∧ ((1 : ℚ) / 2 < 2) := by
  refine ⟨by decide, by decide, ?_, by norm_num⟩
  norm_num [two_probe_gap, rate_limit_next, rate_limit_sleep, max_def]

/-- Claim C4 (amended): `verify_email` invokes the rate limiter after
the DNS resolution but before every SMTP probe; the rate limiter
guarantees that at least the configured delay has elapsed since the end
of the previous rate-limiter call (the start, not the end, of the
previous probe) before a new probe starts; and on a fresh finder
(stored timestamp 0) the call does not sleep provided the clock reads
at least the delay. -/
theorem verify_rate_limit_spacing (resolver : String → MxOutcome)
    (smtpO : String → String → SmtpOutcome) (email : String)
    (delay last now : ℚ) :
    ((verify_email_events resolver smtpO email).takeWhile
        (fun ev => !ev.isRateLimitCall)).all (fun ev => !ev.isSmtp) = true ∧
    last + delay ≤ rate_limit_next delay last now ∧
    (delay ≤ now → rate_limit_sleep delay 0 now = 0) := by
  refine ⟨?_, ?_, ?_⟩
  · unfold verify_email_events
    cases hd : email_domain email with
    | none => simp
    | some domain =>
      by_cases hmx : get_mx_records resolver domain = []
      · simp [hmx, NetEvent.isRateLimitCall, NetEvent.isSmtp]
      · simp [hmx, NetEvent.isRateLimitCall, NetEvent.isSmtp]
  · unfold rate_limit_next rate_limit_sleep
    split
    · linarith
    · linarith
  · intro h
    unfold rate_limit_sleep
    rw [if_neg (by linarith)]

/-- Witness for the amended C4 theorem: a concrete call with delay 2,
previous timestamp 5 and clock 6 sleeps until 7, two units after the
previous rate-limiter return. -/
theorem verify_rate_limit_spacing_witness :
    (((verify_email_events (fun _ => .records [(10, "mx1.acme.com")])
        (fun _ _ => .response 250 "OK") "a@acme.com").takeWhile
        (fun ev => !ev.isRateLimitCall)).all (fun ev => !ev.isSmtp) = true ∧
      (5 : ℚ) + 2 ≤ rate_limit_next 2 5 6 ∧
      ((2 : ℚ) ≤ 6 → rate_limit_sleep 2 0 6 = 0)) ∧
    rate_limit_sleep 2 0 6 = 0 := by
  have h := verify_rate_limit_spacing (fun _ => .records [(10, "mx1.acme.com")])
    (fun _ _ => .response 250 "OK") "a@acme.com" 2 5 6
  exact ⟨h, h.2.2 (by norm_num)⟩

end EmailFinder
